import Mathlib

/-!
# Frame-boost `frame_info` unit

A shallow embedding of `kernel/oplus_perf_sched/frame_boost/frame_info.c`.

The global `default_frame_info` record becomes an explicit value of type
`frame_info` that every operation receives and (when it writes) returns.
C integers are natural numbers or integers with explicit reductions modulo
`2^32` / `2^64` at the places where the C code converts or may wrap.
A division whose divisor is zero has no defined result in C; operations that
may reach one return `none` there.
The spinlock is not modelled: every operation is taken as one atomic step.
The optional `trace_printk` debugging output is not modelled.
-/

namespace FrameBoost

/-! ## Constants -/

/-- Modelled from the spec: `NSEC_PER_SEC` comes from the kernel time headers,
which are not among the sources; the spec derives the interval as `1e9 / frameRate`. -/
def NSEC_PER_SEC : Nat := 1000000000

/-- Modelled from the spec: `NSEC_PER_MSEC` comes from the kernel time headers,
which are not among the sources; the spec converts with `frameInterval / 1e6`. -/
def NSEC_PER_MSEC : Nat := 1000000

/-- Modelled from the spec: `EINVAL` comes from the kernel errno headers, which are
not among the sources; it is the positive code of the spec's `InvalidArgument`. -/
def EINVAL : Int := 22

/-- Modelled from the spec: `SCHED_CAPACITY_SHIFT` comes from the scheduler headers,
which are not among the sources; the spec scales with `elapsedNs << 10`. -/
def SCHED_CAPACITY_SHIFT : Nat := 10

/-- Macro `DEFAULT_FRAME_RATE (60)`. -/
def DEFAULT_FRAME_RATE : Nat := 60

/-- Macro `DEFAULT_FRAME_INTERVAL (16666667L)`. -/
def DEFAULT_FRAME_INTERVAL : Nat := 16666667

/-- Macro `FRAME_MAX_UTIL (1024)`. -/
def FRAME_MAX_UTIL : Nat := 1024

/-- Macro `VUTIL_MAX_FRAME_COUNT (1)`. -/
def VUTIL_MAX_FRAME_COUNT : Nat := 1

/-- Macro `FRAME_ZONE (1 << 0)` of `frame_group.h`. -/
def FRAME_ZONE : Nat := 1

/-! ## Machine integers -/

/-- Conversion to `unsigned int`: reduction modulo `2^32`. -/
def toU32 (n : Nat) : Nat := n % 2 ^ 32

/-- Conversion to `u64` / `unsigned long`: reduction modulo `2^64`. -/
def toU64 (n : Nat) : Nat := n % 2 ^ 64

/-- Conversion of an unsigned value to `int`: the low 32 bits read as two's complement. -/
def toInt32 (n : Nat) : Int :=
  if n % 2 ^ 32 < 2 ^ 31 then ((n % 2 ^ 32 : Nat) : Int) else ((n % 2 ^ 32 : Nat) : Int) - 2 ^ 32

/-- Result of an `int` operation: the kernel is built with wrapping signed arithmetic. -/
def wrapInt32 (x : Int) : Int := toInt32 (x % 2 ^ 32).toNat

/-- Conversion of an `int` to `unsigned long`: sign extension, i.e. reduction modulo `2^64`. -/
def intToULong (x : Int) : Nat := (x % 2 ^ 64).toNat

/-- Conversion of an `int` to `unsigned int`: reduction modulo `2^32`. -/
def intToU32 (x : Int) : Nat := (x % 2 ^ 32).toNat

/-! ## The record -/

/-- The `struct frame_info` record; `unsigned int` and `u64` fields are naturals. -/
structure frame_info where
  frame_rate : Nat
  frame_rate_max : Nat
  frame_interval : Nat
  frame_vutil : Nat
  frame_max_util : Nat
  frame_min_util : Nat
  vutil_time2max : Nat
  frame_state : Nat
  last_compose_time : Nat
  clear_limit : Bool
deriving DecidableEq

/-- Every field holds a value of its C type. -/
def frame_info.wf (fi : frame_info) : Prop :=
  fi.frame_rate < 2 ^ 32 ∧ fi.frame_rate_max < 2 ^ 32 ∧ fi.frame_interval < 2 ^ 32 ∧
  fi.frame_vutil < 2 ^ 32 ∧ fi.frame_max_util < 2 ^ 32 ∧ fi.frame_min_util < 2 ^ 32 ∧
  fi.vutil_time2max < 2 ^ 32 ∧ fi.frame_state < 2 ^ 32 ∧ fi.last_compose_time < 2 ^ 64

instance (fi : frame_info) : Decidable fi.wf := by
  unfold frame_info.wf; infer_instance

/-! ## Operations -/

/-- The helper `__set_frame_rate`: stores the rate and derives interval and time-to-max.
`NSEC_PER_SEC / frame_rate` is undefined for `frame_rate = 0`. -/
def __set_frame_rate (fi : frame_info) (frame_rate : Nat) : Option frame_info :=
  if frame_rate = 0 then none
  else
    let frame_interval := toU32 (NSEC_PER_SEC / frame_rate)
    some { fi with
      frame_rate := frame_rate
      frame_interval := frame_interval
      vutil_time2max := toU32 (toU32 (VUTIL_MAX_FRAME_COUNT * frame_interval) / NSEC_PER_MSEC) }

/-- The operation `set_max_frame_rate`: set the ceiling, then the rate itself. -/
def set_max_frame_rate (fi : frame_info) (frame_rate : Nat) : Option frame_info :=
  __set_frame_rate { fi with frame_rate_max := frame_rate } frame_rate

/-- The operation `set_frame_rate`: returns the boolean result and the record afterwards. -/
def set_frame_rate (fi : frame_info) (frame_rate : Nat) : Option (Bool × frame_info) :=
  if frame_rate = fi.frame_rate then some (false, fi)
  else if frame_rate > fi.frame_rate_max then some (false, fi)
  else (__set_frame_rate fi frame_rate).map (fun fi1 => (true, fi1))

/-- The query `is_high_frame_rate`. -/
def is_high_frame_rate (fi : frame_info) : Bool :=
  decide (fi.frame_rate > DEFAULT_FRAME_RATE)

/-- The operation `set_frame_util_min`: returns the `int` result and the record afterwards. -/
def set_frame_util_min (fi : frame_info) (min_util : Int) (clear : Bool) : Int × frame_info :=
  if min_util < 0 ∨ min_util > (FRAME_MAX_UTIL : Int) then (-EINVAL, fi)
  else (0, { fi with frame_min_util := intToU32 min_util, clear_limit := clear })

/-- The operation `set_frame_state`. -/
def set_frame_state (fi : frame_info) (state : Nat) : frame_info :=
  let fi1 := { fi with frame_state := state }
  if fi1.clear_limit then
    { fi1 with frame_max_util := FRAME_MAX_UTIL, frame_min_util := 0, clear_limit := false }
  else fi1

/-- The query `get_frame_vutil`; it assigns no field of the record.
`FRAME_END` is the value of the macro of that name from `frame_boost.h`, which is not
among the sources. `delta_ms`, `max_time` and `tmp` are `int`. -/
def get_frame_vutil (FRAME_END : Nat) (fi : frame_info) (delta : Nat) : Nat :=
  if fi.frame_state = FRAME_END then 0
  else
    let delta_ms : Int := toInt32 (toU64 delta / NSEC_PER_MSEC)
    let max_time : Int := toInt32 fi.vutil_time2max
    if max_time ≤ 0 ∨ delta_ms > max_time then FRAME_MAX_UTIL
    else
      let tmp : Int := wrapInt32 (delta_ms + Int.tdiv (FRAME_MAX_UTIL : Int) max_time)
      if tmp ≤ max_time then 0
      else intToULong (wrapInt32 (delta_ms * wrapInt32 (tmp - max_time)))

/-- The query `get_frame_putil`; it assigns no field of the record.
`div_u64` takes a `u64` dividend and a `u32` divisor. -/
def get_frame_putil (fi : frame_info) (delta : Nat) (frame_zone : Nat) : Nat :=
  let frame_interval : Nat :=
    if Nat.land frame_zone FRAME_ZONE ≠ 0 then fi.frame_interval else DEFAULT_FRAME_INTERVAL
  if frame_interval > 0 then
    toU64 (toU64 delta <<< SCHED_CAPACITY_SHIFT) / toU32 frame_interval
  else 0

/-- The query `frame_uclamp`; it assigns no field of the record. -/
def frame_uclamp (fi : frame_info) (util : Nat) : Nat :=
  if fi.frame_min_util > fi.frame_max_util then util
  else
    let clamp_util := max fi.frame_min_util util
    min clamp_util fi.frame_max_util

/-- The operation `check_last_compose_time`; `now` is the value read from
`fbg_ktime_get_ns()`. The subtraction is a `u64` subtraction. -/
def check_last_compose_time (fi : frame_info) (now : Nat) (composition : Bool) :
    Bool × frame_info :=
  let fi1 := if composition then { fi with last_compose_time := now } else fi
  (decide ((((now : Int) - (fi1.last_compose_time : Int)) % 2 ^ 64).toNat ≤ fi1.frame_interval),
   fi1)

/-- The initialiser `frame_info_init`: the record is zeroed, then the defaults are stored.
`FRAME_END` is the value of the macro of that name from `frame_boost.h`. -/
def frame_info_init (FRAME_END : Nat) : frame_info :=
  { frame_rate := DEFAULT_FRAME_RATE
    frame_interval := DEFAULT_FRAME_INTERVAL
    frame_rate_max := DEFAULT_FRAME_RATE
    frame_vutil := 0
    frame_max_util := FRAME_MAX_UTIL
    frame_min_util := 0
    vutil_time2max :=
      toU32 (toU32 (VUTIL_MAX_FRAME_COUNT * DEFAULT_FRAME_INTERVAL) / NSEC_PER_MSEC)
    frame_state := FRAME_END
    clear_limit := false
    last_compose_time := 0 }

/-! ## Sequences of calls -/

/-- One call of the interface of `frame_info.c`, with its arguments. -/
inductive Op where
  | set_max_frame_rate (frame_rate : Nat)
  | set_frame_rate (frame_rate : Nat)
  | set_frame_util_min (min_util : Int) (clear : Bool)
  | set_frame_state (state : Nat)
  | check_last_compose_time (now : Nat) (composition : Bool)
  | get_frame_vutil (delta : Nat)
  | get_frame_putil (delta : Nat) (frame_zone : Nat)
  | frame_uclamp (util : Nat)
  | is_high_frame_rate
deriving DecidableEq

/-- The record after one call; `none` when the call divides by zero. -/
def step (fi : frame_info) : Op → Option frame_info
  | .set_max_frame_rate r => set_max_frame_rate fi r
  | .set_frame_rate r => (set_frame_rate fi r).map Prod.snd
  | .set_frame_util_min m c => some (set_frame_util_min fi m c).2
  | .set_frame_state st => some (set_frame_state fi st)
  | .check_last_compose_time now c => some (check_last_compose_time fi now c).2
  | .get_frame_vutil _ => some fi
  | .get_frame_putil _ _ => some fi
  | .frame_uclamp _ => some fi
  | .is_high_frame_rate => some fi

/-- The record after a sequence of calls, first call first. -/
def run (fi : frame_info) : List Op → Option frame_info
  | [] => some fi
  | op :: ops => (step fi op).bind (fun fi1 => run fi1 ops)

/-- A record is reachable when some sequence of calls after `frame_info_init` produces it. -/
def Reachable (FRAME_END : Nat) (fi : frame_info) : Prop :=
  ∃ ops : List Op, run (frame_info_init FRAME_END) ops = some fi

/-! ## Auxiliary facts -/

theorem toU32_of_lt {n : Nat} (h : n < 2 ^ 32) : toU32 n = n :=
  Nat.mod_eq_of_lt h

theorem interval_lt (r : Nat) : 1000000000 / r < 2 ^ 32 :=
  lt_of_le_of_lt (Nat.div_le_self _ _) (by norm_num)

theorem time2max_lt (r : Nat) : 1000000000 / r / 1000000 < 2 ^ 32 :=
  lt_of_le_of_lt (Nat.div_le_self _ _) (interval_lt r)

/-- For a non-zero rate the helper stores the rate and the two derived values; none of the
conversions to `unsigned int` loses anything. -/
theorem helper_set_frame_rate_eq (fi : frame_info) (r : Nat) (h : 0 < r) :
    __set_frame_rate fi r =
      some { fi with
        frame_rate := r
        frame_interval := 1000000000 / r
        vutil_time2max := 1000000000 / r / 1000000 } := by
  have hr : r ≠ 0 := Nat.pos_iff_ne_zero.mp h
  simp [__set_frame_rate, hr, NSEC_PER_SEC, NSEC_PER_MSEC, VUTIL_MAX_FRAME_COUNT,
    toU32_of_lt (interval_lt r), toU32_of_lt (time2max_lt r)]

/-! ## Rate negotiation -/

/-- C1: when `rate` equals the current `frame_rate`, or `rate > frame_rate_max`,
`set_frame_rate` returns false and the whole record (every field) is unchanged. -/
theorem set_frame_rate_rejected (fi : frame_info) (rate : Nat)
    (h : rate = fi.frame_rate ∨ rate > fi.frame_rate_max) :
    set_frame_rate fi rate = some (false, fi) := by
  unfold set_frame_rate
  rcases h with h | h
  · simp [h]
  · by_cases h1 : rate = fi.frame_rate
    · simp [h1]
    · simp [h1, h]

/-- Instance of C1 on the initial record: the rate 61 is above the ceiling 60. -/
theorem set_frame_rate_rejected_witness :
    (61 = (frame_info_init 2).frame_rate ∨ 61 > (frame_info_init 2).frame_rate_max) ∧
      set_frame_rate (frame_info_init 2) 61 = some (false, frame_info_init 2) :=
  ⟨by decide, set_frame_rate_rejected (frame_info_init 2) 61 (by decide)⟩

/-- C2: for `rate > 0`, `set_frame_rate` returns true exactly when `rate` differs from
`frame_rate` and does not exceed `frame_rate_max`; when it returns true the new record
has `frame_rate = rate`, `frame_interval = 1000000000 / rate` and
`vutil_time2max = frame_interval / 1000000`, every other field being unchanged. -/
theorem set_frame_rate_accepts_iff (fi : frame_info) (rate : Nat) (h : 0 < rate) :
    ∃ (ok : Bool) (fi1 : frame_info),
      set_frame_rate fi rate = some (ok, fi1) ∧
      (ok = true ↔ (rate ≠ fi.frame_rate ∧ rate ≤ fi.frame_rate_max)) ∧
      (ok = true →
        fi1 = { fi with
          frame_rate := rate
          frame_interval := 1000000000 / rate
          vutil_time2max := 1000000000 / rate / 1000000 }) := by
  unfold set_frame_rate
  by_cases h1 : rate = fi.frame_rate
  · exact ⟨false, fi, by simp [h1], by simp [h1], by simp⟩
  · by_cases h2 : rate > fi.frame_rate_max
    · exact ⟨false, fi, by simp [h1, h2], by simp [h1]; omega, by simp⟩
    · refine ⟨true, _, ?_, ?_, fun _ => rfl⟩
      · simp [h1, h2, helper_set_frame_rate_eq fi rate h]
      · simp [h1]; omega

/-- Instance of C2 on the initial record with the rate 48. -/
theorem set_frame_rate_accepts_iff_witness :
    0 < 48 ∧
    ∃ (ok : Bool) (fi1 : frame_info),
      set_frame_rate (frame_info_init 2) 48 = some (ok, fi1) ∧
      (ok = true ↔ (48 ≠ (frame_info_init 2).frame_rate ∧
        48 ≤ (frame_info_init 2).frame_rate_max)) ∧
      (ok = true →
        fi1 = { frame_info_init 2 with
          frame_rate := 48
          frame_interval := 1000000000 / 48
          vutil_time2max := 1000000000 / 48 / 1000000 }) :=
  ⟨by decide, set_frame_rate_accepts_iff (frame_info_init 2) 48 (by decide)⟩

/-- C3, as stated, fails: with `rate1 = rate2 = 60` (so `rate2 ≤ rate1`), after
`set_max_frame_rate 60` the call `set_frame_rate 60` returns false, because the
requested rate is already the current one. -/
theorem set_frame_rate_after_max_equal_rates :
    ((set_max_frame_rate (frame_info_init 2) 60).bind
        (fun fi1 => set_frame_rate fi1 60)).map Prod.fst = some false := by
  decide

/-- C3, amended: for `0 < rate2 ≤ rate1`, from any record, `set_max_frame_rate rate1`
followed by `set_frame_rate rate2` returns true exactly when `rate2 < rate1`, and in
both cases the record afterwards has `frame_interval = 1000000000 / rate2`. -/
theorem set_frame_rate_after_max (fi : frame_info) (rate1 rate2 : Nat)
    (h0 : 0 < rate2) (h : rate2 ≤ rate1) :
    ∃ (fi1 : frame_info) (ok : Bool) (fi2 : frame_info),
      set_max_frame_rate fi rate1 = some fi1 ∧
      set_frame_rate fi1 rate2 = some (ok, fi2) ∧
      (ok = true ↔ rate2 < rate1) ∧
      fi2.frame_interval = 1000000000 / rate2 := by
  have h1 : 0 < rate1 := lt_of_lt_of_le h0 h
  have hmax : set_max_frame_rate fi rate1 =
      some { fi with
        frame_rate_max := rate1
        frame_rate := rate1
        frame_interval := 1000000000 / rate1
        vutil_time2max := 1000000000 / rate1 / 1000000 } := by
    unfold set_max_frame_rate
    exact helper_set_frame_rate_eq _ rate1 h1
  rcases Nat.lt_or_eq_of_le h with hlt | heq
  · have hne : rate2 ≠ rate1 := Nat.ne_of_lt hlt
    have hng : ¬ rate2 > rate1 := by omega
    refine ⟨_, true, { fi with
        frame_rate_max := rate1
        frame_rate := rate2
        frame_interval := 1000000000 / rate2
        vutil_time2max := 1000000000 / rate2 / 1000000 }, hmax, ?_, by simp [hlt], rfl⟩
    unfold set_frame_rate
    simp [hne, hng, helper_set_frame_rate_eq _ rate2 h0]
  · subst heq
    refine ⟨_, false, { fi with
        frame_rate_max := rate2
        frame_rate := rate2
        frame_interval := 1000000000 / rate2
        vutil_time2max := 1000000000 / rate2 / 1000000 }, hmax, ?_, by simp, rfl⟩
    unfold set_frame_rate
    simp

/-- Instance of amended C3 from the initial record with `rate1 = 120` and `rate2 = 90`. -/
theorem set_frame_rate_after_max_witness :
    0 < 90 ∧ 90 ≤ 120 ∧
    ∃ (fi1 : frame_info) (ok : Bool) (fi2 : frame_info),
      set_max_frame_rate (frame_info_init 2) 120 = some fi1 ∧
      set_frame_rate fi1 90 = some (ok, fi2) ∧
      (ok = true ↔ 90 < 120) ∧
      fi2.frame_interval = 1000000000 / 90 :=
  ⟨by decide, by decide,
    set_frame_rate_after_max (frame_info_init 2) 120 90 (by decide) (by decide)⟩

/-- C4: for `rate > 0`, `set_max_frame_rate` yields the record with
`frame_rate_max = rate`, `frame_rate = rate`, `frame_interval = 1000000000 / rate` and
`vutil_time2max = frame_interval / 1000000`, whatever the previous rate and ceiling were;
every other field (both clamps, state, compose time, clear flag) is unchanged. -/
theorem set_max_frame_rate_result (fi : frame_info) (rate : Nat) (h : 0 < rate) :
    set_max_frame_rate fi rate =
      some { fi with
        frame_rate_max := rate
        frame_rate := rate
        frame_interval := 1000000000 / rate
        vutil_time2max := 1000000000 / rate / 1000000 } := by
  unfold set_max_frame_rate
  exact helper_set_frame_rate_eq _ rate h

/-- Instance of C4 on the initial record with the rate 120. -/
theorem set_max_frame_rate_result_witness :
    0 < 120 ∧
    set_max_frame_rate (frame_info_init 2) 120 =
      some { frame_info_init 2 with
        frame_rate_max := 120
        frame_rate := 120
        frame_interval := 1000000000 / 120
        vutil_time2max := 1000000000 / 120 / 1000000 } :=
  ⟨by decide, set_max_frame_rate_result (frame_info_init 2) 120 (by decide)⟩

/-- C5 fails at `rate = 0`: on the initial record `set_max_frame_rate 0` reaches
`NSEC_PER_SEC / 0`, and so does `set_frame_rate 0`, which passes both checks
(`0 ≠ 60` and `0 ≤ 60`); neither call has a defined result. -/
theorem set_max_frame_rate_zero_divides :
    set_max_frame_rate (frame_info_init 2) 0 = none ∧
      set_frame_rate (frame_info_init 2) 0 = none := by
  decide

/-! ## Invariants over sequences of calls -/

/-- What one call does to the three rate fields: either it leaves them alone, or it is a
rate change to some `r > 0` that stays below the ceiling and re-derives the interval. -/
theorem step_rate_fields (fi : frame_info) (op : Op) (fi1 : frame_info)
    (h : step fi op = some fi1) :
    (fi1.frame_rate = fi.frame_rate ∧ fi1.frame_rate_max = fi.frame_rate_max ∧
        fi1.frame_interval = fi.frame_interval) ∨
      (0 < fi1.frame_rate ∧ fi1.frame_rate ≤ fi1.frame_rate_max ∧
        fi1.frame_interval = 1000000000 / fi1.frame_rate) := by
  cases op with
  | set_max_frame_rate r =>
    rcases Nat.eq_zero_or_pos r with h0 | h0
    · subst h0
      simp [step, set_max_frame_rate, __set_frame_rate] at h
    · simp only [step, set_max_frame_rate, helper_set_frame_rate_eq _ r h0,
        Option.some.injEq] at h
      subst h
      exact Or.inr ⟨h0, le_refl _, rfl⟩
  | set_frame_rate r =>
    simp only [step, set_frame_rate] at h
    by_cases h1 : r = fi.frame_rate
    · simp [h1] at h
      subst h
      exact Or.inl ⟨rfl, rfl, rfl⟩
    · by_cases h2 : r > fi.frame_rate_max
      · simp [h1, h2] at h
        subst h
        exact Or.inl ⟨rfl, rfl, rfl⟩
      · rcases Nat.eq_zero_or_pos r with h0 | h0
        · subst h0
          simp [h1, h2, __set_frame_rate] at h
        · simp [h1, h2, helper_set_frame_rate_eq _ r h0] at h
          subst h
          exact Or.inr ⟨h0, Nat.le_of_not_gt h2, rfl⟩
  | set_frame_util_min m c =>
    simp only [step, set_frame_util_min, Option.some.injEq] at h
    subst h
    split <;> exact Or.inl ⟨rfl, rfl, rfl⟩
  | set_frame_state st =>
    simp only [step, set_frame_state, Option.some.injEq] at h
    subst h
    split <;> exact Or.inl ⟨rfl, rfl, rfl⟩
  | check_last_compose_time now c =>
    simp only [step, check_last_compose_time, Option.some.injEq] at h
    subst h
    cases c <;> exact Or.inl ⟨rfl, rfl, rfl⟩
  | get_frame_vutil d =>
    simp only [step, Option.some.injEq] at h
    subst h
    exact Or.inl ⟨rfl, rfl, rfl⟩
  | get_frame_putil d z =>
    simp only [step, Option.some.injEq] at h
    subst h
    exact Or.inl ⟨rfl, rfl, rfl⟩
  | frame_uclamp u =>
    simp only [step, Option.some.injEq] at h
    subst h
    exact Or.inl ⟨rfl, rfl, rfl⟩
  | is_high_frame_rate =>
    simp only [step, Option.some.injEq] at h
    subst h
    exact Or.inl ⟨rfl, rfl, rfl⟩

/-- A property kept by every single call is kept by every sequence of calls. -/
theorem run_preserves (P : frame_info → Prop)
    (hstep : ∀ fi op fi1, P fi → step fi op = some fi1 → P fi1) :
    ∀ (ops : List Op) (fi fi1 : frame_info), P fi → run fi ops = some fi1 → P fi1 := by
  intro ops
  induction ops with
  | nil =>
    intro fi fi1 hP h
    simp only [run, Option.some.injEq] at h
    exact h ▸ hP
  | cons op ops ih =>
    intro fi fi1 hP h
    simp only [run] at h
    cases hs : step fi op with
    | none => simp [hs] at h
    | some fi2 =>
      simp only [hs, Option.some_bind] at h
      exact ih fi2 fi1 (hstep fi op fi2 hP hs) h

/-- C6: `frame_rate ≤ frame_rate_max` holds in the record produced by `frame_info_init`,
is preserved by every call of the interface (the three read-only queries included), and
therefore holds in every reachable record. -/
theorem frame_rate_le_max_invariant (FRAME_END : Nat) :
    (frame_info_init FRAME_END).frame_rate ≤ (frame_info_init FRAME_END).frame_rate_max ∧
    (∀ (fi : frame_info) (op : Op) (fi1 : frame_info),
      fi.frame_rate ≤ fi.frame_rate_max → step fi op = some fi1 →
        fi1.frame_rate ≤ fi1.frame_rate_max) ∧
    (∀ fi : frame_info, Reachable FRAME_END fi → fi.frame_rate ≤ fi.frame_rate_max) := by
  have hinit : (frame_info_init FRAME_END).frame_rate ≤
      (frame_info_init FRAME_END).frame_rate_max := le_refl _
  have hstep : ∀ (fi : frame_info) (op : Op) (fi1 : frame_info),
      fi.frame_rate ≤ fi.frame_rate_max → step fi op = some fi1 →
        fi1.frame_rate ≤ fi1.frame_rate_max := by
    intro fi op fi1 hle h
    rcases step_rate_fields fi op fi1 h with ⟨e1, e2, _⟩ | ⟨_, hle1, _⟩
    · rw [e1, e2]
      exact hle
    · exact hle1
  refine ⟨hinit, hstep, ?_⟩
  rintro fi ⟨ops, hrun⟩
  exact run_preserves (fun s => s.frame_rate ≤ s.frame_rate_max) hstep ops _ fi hinit hrun

/-- Instance of C6: the record after `set_max_frame_rate 120`, `set_frame_rate 90` and
`set_frame_state 1` is reachable, and its rate is at most its ceiling. -/
theorem frame_rate_le_max_invariant_witness :
    ∃ fi : frame_info,
      run (frame_info_init 2)
        [Op.set_max_frame_rate 120, Op.set_frame_rate 90, Op.set_frame_state 1] = some fi ∧
      fi.frame_rate = 90 ∧ fi.frame_rate_max = 120 ∧ fi.frame_rate ≤ fi.frame_rate_max :=
  ⟨{ frame_info_init 2 with
      frame_rate_max := 120
      frame_rate := 90
      frame_interval := 11111111
      vutil_time2max := 11
      frame_state := 1 },
    by decide, rfl, rfl,
    (frame_rate_le_max_invariant 2).2.2 _
      ⟨[Op.set_max_frame_rate 120, Op.set_frame_rate 90, Op.set_frame_state 1], by decide⟩⟩

/-- C7, as stated, fails in the initial record (reachable by the empty sequence of
calls): `frame_interval` is `DEFAULT_FRAME_INTERVAL = 16666667` while
`1000000000 / frame_rate = 1000000000 / 60 = 16666666`. -/
theorem frame_interval_init_not_derived :
    Reachable 2 (frame_info_init 2) ∧
      (frame_info_init 2).frame_interval = 16666667 ∧
      1000000000 / (frame_info_init 2).frame_rate = 16666666 ∧
      (frame_info_init 2).frame_interval ≠ 1000000000 / (frame_info_init 2).frame_rate :=
  ⟨⟨[], rfl⟩, by decide, by decide, by decide⟩

/-- C7, amended: in every reachable record either
`frame_interval = 1000000000 / frame_rate`, or the record still carries the initial
defaults `frame_rate = 60` and `frame_interval = 16666667` (no rate change has succeeded
yet). -/
theorem frame_interval_consistent (FRAME_END : Nat) (fi : frame_info)
    (h : Reachable FRAME_END fi) :
    fi.frame_interval = 1000000000 / fi.frame_rate ∨
      (fi.frame_rate = 60 ∧ fi.frame_interval = 16666667) := by
  obtain ⟨ops, hrun⟩ := h
  refine run_preserves
    (fun s => s.frame_interval = 1000000000 / s.frame_rate ∨
      (s.frame_rate = 60 ∧ s.frame_interval = 16666667)) ?_ ops _ fi (Or.inr ⟨rfl, rfl⟩) hrun
  intro s op s1 hP hs
  rcases step_rate_fields s op s1 hs with ⟨e1, _, e3⟩ | ⟨_, _, e⟩
  · rw [e1, e3]
    exact hP
  · exact Or.inl e

/-- Instance of amended C7: after `set_max_frame_rate 120` and `set_frame_rate 90` the
interval is `1000000000 / 90`. -/
theorem frame_interval_consistent_witness :
    Reachable 2 { frame_info_init 2 with
        frame_rate_max := 120
        frame_rate := 90
        frame_interval := 11111111
        vutil_time2max := 11 } ∧
      ((11111111 : Nat) = 1000000000 / 90 ∨ ((90 : Nat) = 60 ∧ (11111111 : Nat) = 16666667)) :=
  ⟨⟨[Op.set_max_frame_rate 120, Op.set_frame_rate 90], by decide⟩,
    frame_interval_consistent 2
      { frame_info_init 2 with
        frame_rate_max := 120
        frame_rate := 90
        frame_interval := 11111111
        vutil_time2max := 11 }
      ⟨[Op.set_max_frame_rate 120, Op.set_frame_rate 90], by decide⟩⟩

/-! ## Utilization clamp and frame state -/

/-- An accepted `min_util` is stored without change by the conversion to `unsigned int`. -/
theorem intToU32_of_range (m : Int) (h0 : 0 ≤ m) (h1 : m ≤ 1024) : intToU32 m = m.toNat := by
  unfold intToU32
  rw [Int.emod_eq_of_lt h0 (by omega)]

/-- C8: `set_frame_util_min` returns `-EINVAL` exactly when `min_util < 0` or
`min_util > 1024`, and then the record is unchanged; otherwise it returns 0 and the new
record has `frame_min_util = min_util` and `clear_limit = clear`, every other field
(`frame_max_util` included) unchanged. In particular -1 and 1025 are rejected, 0 and
1024 are accepted. -/
theorem set_frame_util_min_result (fi : frame_info) (min_util : Int) (clear : Bool) :
    ((set_frame_util_min fi min_util clear).1 = -EINVAL ↔ (min_util < 0 ∨ min_util > 1024)) ∧
    ((min_util < 0 ∨ min_util > 1024) → set_frame_util_min fi min_util clear = (-EINVAL, fi)) ∧
    (¬ (min_util < 0 ∨ min_util > 1024) →
      set_frame_util_min fi min_util clear =
        (0, { fi with frame_min_util := min_util.toNat, clear_limit := clear })) ∧
    set_frame_util_min fi (-1) clear = (-EINVAL, fi) ∧
    set_frame_util_min fi 1025 clear = (-EINVAL, fi) ∧
    set_frame_util_min fi 0 clear = (0, { fi with frame_min_util := 0, clear_limit := clear }) ∧
    set_frame_util_min fi 1024 clear =
      (0, { fi with frame_min_util := 1024, clear_limit := clear }) := by
  have hbad : ∀ m : Int, (m < 0 ∨ m > 1024) → set_frame_util_min fi m clear = (-EINVAL, fi) := by
    intro m hm
    simp [set_frame_util_min, FRAME_MAX_UTIL, hm]
  have hgood : ∀ m : Int, ¬ (m < 0 ∨ m > 1024) →
      set_frame_util_min fi m clear =
        (0, { fi with frame_min_util := m.toNat, clear_limit := clear }) := by
    intro m hm
    have h0 : 0 ≤ m := by omega
    have h1 : m ≤ 1024 := by omega
    simp [set_frame_util_min, FRAME_MAX_UTIL, hm, intToU32_of_range m h0 h1]
  refine ⟨?_, hbad min_util, hgood min_util, hbad (-1) (by decide), hbad 1025 (by decide),
    hgood 0 (by decide), hgood 1024 (by decide)⟩
  constructor
  · intro h
    by_contra hn
    rw [hgood min_util hn] at h
    simp [EINVAL] at h
  · intro h
    rw [hbad min_util h]

/-- C9: for `0 ≤ m ≤ 1024`, `set_frame_util_min m true` returns 0, and the following
`set_frame_state st` leaves `frame_state = st`, `frame_min_util = 0`,
`frame_max_util = 1024` and `clear_limit = false`, every other field being that of the
record before both calls; and on a record whose `clear_limit` is false,
`set_frame_state st` changes `frame_state` only. -/
theorem set_frame_state_after_util_min (fi : frame_info) (m : Int) (st : Nat)
    (h0 : 0 ≤ m) (h1 : m ≤ 1024) :
    (set_frame_util_min fi m true).1 = 0 ∧
    set_frame_state (set_frame_util_min fi m true).2 st =
      { fi with
        frame_state := st
        frame_min_util := 0
        frame_max_util := 1024
        clear_limit := false } ∧
    (fi.clear_limit = false → set_frame_state fi st = { fi with frame_state := st }) := by
  have hm : ¬ (m < 0 ∨ m > 1024) := by omega
  refine ⟨?_, ?_, ?_⟩
  · simp [set_frame_util_min, FRAME_MAX_UTIL, hm]
  · simp [set_frame_util_min, set_frame_state, FRAME_MAX_UTIL, hm]
  · intro hc
    simp [set_frame_state, hc]

/-- Instance of C9 on the initial record with `m = 512` and state value 1. -/
theorem set_frame_state_after_util_min_witness :
    (0 : Int) ≤ 512 ∧ (512 : Int) ≤ 1024 ∧
    (set_frame_util_min (frame_info_init 2) 512 true).1 = 0 ∧
    set_frame_state (set_frame_util_min (frame_info_init 2) 512 true).2 1 =
      { frame_info_init 2 with
        frame_state := 1
        frame_min_util := 0
        frame_max_util := 1024
        clear_limit := false } ∧
    ((frame_info_init 2).clear_limit = false →
      set_frame_state (frame_info_init 2) 1 = { frame_info_init 2 with frame_state := 1 }) :=
  ⟨by decide, by decide,
    set_frame_state_after_util_min (frame_info_init 2) 512 1 (by decide) (by decide)⟩

/-! ## Virtual utilization -/

/-- C10: on a record whose `frame_state` is `FRAME_END`, `get_frame_vutil` returns 0 for
every elapsed time and the call leaves the record as it is; in particular this is so on
the record right after `frame_info_init`. -/
theorem get_frame_vutil_frame_end (FRAME_END : Nat) (fi : frame_info) (delta : Nat)
    (h : fi.frame_state = FRAME_END) :
    get_frame_vutil FRAME_END fi delta = 0 ∧
    step fi (Op.get_frame_vutil delta) = some fi ∧
    get_frame_vutil FRAME_END (frame_info_init FRAME_END) delta = 0 := by
  refine ⟨?_, rfl, ?_⟩
  · simp [get_frame_vutil, h]
  · simp [get_frame_vutil, frame_info_init]

/-- Instance of C10: the initial record, 17 ms after frame start. -/
theorem get_frame_vutil_frame_end_witness :
    (frame_info_init 2).frame_state = 2 ∧
    get_frame_vutil 2 (frame_info_init 2) 17000000 = 0 ∧
    step (frame_info_init 2) (Op.get_frame_vutil 17000000) = some (frame_info_init 2) ∧
    get_frame_vutil 2 (frame_info_init 2) 17000000 = 0 :=
  ⟨rfl, get_frame_vutil_frame_end 2 (frame_info_init 2) 17000000 rfl⟩

/-! ## Machine-integer facts -/

theorem toInt32_of_lt {n : Nat} (h : n < 2 ^ 31) : toInt32 n = (n : Int) := by
  unfold toInt32
  have h1 : n % 2 ^ 32 = n := Nat.mod_eq_of_lt (by omega)
  rw [h1, if_pos h]

theorem wrapInt32_of_nat {n : Nat} (h : n < 2 ^ 31) : wrapInt32 (n : Int) = (n : Int) := by
  unfold wrapInt32
  have h1 : ((n : Int) % 2 ^ 32).toNat = n := by omega
  rw [h1]
  exact toInt32_of_lt h

theorem intToULong_of_nat {n : Nat} (h : n < 2 ^ 64) : intToULong (n : Int) = n := by
  unfold intToULong
  omega

theorem toU64_of_lt {n : Nat} (h : n < 2 ^ 64) : toU64 n = n :=
  Nat.mod_eq_of_lt h

/-- A positive `int` read from an unsigned field is the field's low 32 bits, below `2^31`. -/
theorem toInt32_pos {n : Nat} (h : 0 < toInt32 n) :
    ∃ K : Nat, toInt32 n = (K : Int) ∧ 0 < K ∧ K < 2 ^ 31 ∧ K = n % 2 ^ 32 := by
  unfold toInt32 at h ⊢
  by_cases hlt : n % 2 ^ 32 < 2 ^ 31
  · rw [if_pos hlt] at h ⊢
    exact ⟨n % 2 ^ 32, rfl, by omega, hlt, rfl⟩
  · rw [if_neg hlt] at h
    omega

/-- The elapsed milliseconds as the `int` the code works with, when they fit. -/
theorem delta_ms_of_lt {delta : Nat} (h : delta / 1000000 < 2 ^ 31) :
    toInt32 (toU64 delta / NSEC_PER_MSEC) = ((delta / 1000000 : Nat) : Int) := by
  have h64 : delta < 2 ^ 64 := by omega
  rw [toU64_of_lt h64]
  exact toInt32_of_lt h

/-- Closed form of `get_frame_vutil` outside `FRAME_END`, when `max_time` is the positive
`int` `K` and `delta_ms` is the non-negative `int` `d`: none of the `int` operations wraps. -/
theorem get_frame_vutil_closed (E : Nat) (fi : frame_info) (delta K d : Nat)
    (hs : fi.frame_state ≠ E)
    (hK : toInt32 fi.vutil_time2max = (K : Int)) (hK0 : 0 < K) (hK1 : K < 2 ^ 31)
    (hd : toInt32 (toU64 delta / NSEC_PER_MSEC) = (d : Int)) :
    get_frame_vutil E fi delta =
      if K < d then 1024 else if d + 1024 / K ≤ K then 0 else d * (d + 1024 / K - K) := by
  have hq : Int.tdiv ((FRAME_MAX_UTIL : Nat) : Int) (K : Int) = ((1024 / K : Nat) : Int) :=
    (Int.ofNat_tdiv 1024 K).symm
  have hq1 : 1024 / K ≤ 1024 := Nat.div_le_self _ _
  have hq2 : 1024 / K * K ≤ 1024 := Nat.div_mul_le_self _ _
  have hq3 : 1024 < K → 1024 / K = 0 := fun h => Nat.div_eq_of_lt h
  unfold get_frame_vutil
  rw [if_neg hs]
  simp only [hK, hd, hq]
  by_cases h1 : K < d
  · have h1i : (d : Int) > (K : Int) := by exact_mod_cast h1
    rw [if_pos (Or.inr h1i), if_pos h1]
    rfl
  · have hcond : ¬ ((K : Int) ≤ 0 ∨ (d : Int) > (K : Int)) := by omega
    rw [if_neg hcond, if_neg h1]
    have hsum : d + 1024 / K < 2 ^ 31 := by
      rcases Nat.lt_or_ge 1024 K with hb | hb
      · rw [hq3 hb]; omega
      · omega
    have htmp : wrapInt32 ((d : Int) + ((1024 / K : Nat) : Int)) = ((d + 1024 / K : Nat) : Int) := by
      rw [← Nat.cast_add]
      exact wrapInt32_of_nat hsum
    rw [htmp]
    by_cases h2 : d + 1024 / K ≤ K
    · have h2i : ((d + 1024 / K : Nat) : Int) ≤ (K : Int) := by exact_mod_cast h2
      rw [if_pos h2i, if_pos h2]
    · have h2i : ¬ ((d + 1024 / K : Nat) : Int) ≤ (K : Int) := by
        intro hh
        exact h2 (by exact_mod_cast hh)
      rw [if_neg h2i, if_neg h2]
      have hKle : K ≤ 1024 := by
        by_contra hb
        rw [hq3 (by omega)] at h2
        omega
      have hsub : ((d + 1024 / K : Nat) : Int) - (K : Int) = ((d + 1024 / K - K : Nat) : Int) := by
        omega
      have hf : d + 1024 / K - K ≤ 1024 := by omega
      have hprod : d * (d + 1024 / K - K) ≤ 1024 * 1024 :=
        Nat.mul_le_mul (by omega) hf
      rw [hsub, wrapInt32_of_nat (by omega), ← Nat.cast_mul, wrapInt32_of_nat (by omega),
        intToULong_of_nat (by omega)]

/-- In the setting of `get_frame_vutil_closed` the value never exceeds 1024. -/
theorem curve_le (K d : Nat) :
    (if K < d then 1024 else if d + 1024 / K ≤ K then 0 else d * (d + 1024 / K - K)) ≤ 1024 := by
  have hq2 : 1024 / K * K ≤ 1024 := Nat.div_mul_le_self _ _
  split_ifs with h1 h2
  · exact le_refl _
  · exact Nat.zero_le _
  · have h3 : d * (d + 1024 / K - K) ≤ K * (1024 / K) :=
      Nat.mul_le_mul (by omega) (by omega)
    rw [Nat.mul_comm K] at h3
    exact le_trans h3 hq2

/-- In the setting of `get_frame_vutil_closed` the value is monotone in the milliseconds. -/
theorem curve_mono (K a b : Nat) (hab : a ≤ b) :
    (if K < a then 1024 else if a + 1024 / K ≤ K then 0 else a * (a + 1024 / K - K)) ≤
      (if K < b then 1024 else if b + 1024 / K ≤ K then 0 else b * (b + 1024 / K - K)) := by
  by_cases hb : K < b
  · rw [if_pos hb]
    exact curve_le K a
  · have ha : ¬ K < a := by omega
    rw [if_neg hb, if_neg ha]
    by_cases h2 : a + 1024 / K ≤ K
    · rw [if_pos h2]
      exact Nat.zero_le _
    · have h3 : ¬ b + 1024 / K ≤ K := by omega
      rw [if_neg h2, if_neg h3]
      exact Nat.mul_le_mul hab (by omega)

/-! ## Time-to-max in reachable records -/

/-- What one call does to `vutil_time2max`: it is left alone, or re-derived from a rate,
and then at most `1000000000 / 1000000`. -/
theorem step_time2max (fi : frame_info) (op : Op) (fi1 : frame_info)
    (h : step fi op = some fi1) :
    fi1.vutil_time2max = fi.vutil_time2max ∨ fi1.vutil_time2max ≤ 1000 := by
  have hb : ∀ r : Nat, 1000000000 / r / 1000000 ≤ 1000 := fun r =>
    le_trans (Nat.div_le_div_right (Nat.div_le_self _ _)) (by norm_num)
  cases op with
  | set_max_frame_rate r =>
    rcases Nat.eq_zero_or_pos r with h0 | h0
    · subst h0
      simp [step, set_max_frame_rate, __set_frame_rate] at h
    · simp only [step, set_max_frame_rate, helper_set_frame_rate_eq _ r h0,
        Option.some.injEq] at h
      subst h
      exact Or.inr (hb r)
  | set_frame_rate r =>
    simp only [step, set_frame_rate] at h
    by_cases h1 : r = fi.frame_rate
    · simp [h1] at h
      subst h
      exact Or.inl rfl
    · by_cases h2 : r > fi.frame_rate_max
      · simp [h1, h2] at h
        subst h
        exact Or.inl rfl
      · rcases Nat.eq_zero_or_pos r with h0 | h0
        · subst h0
          simp [h1, h2, __set_frame_rate] at h
        · simp [h1, h2, helper_set_frame_rate_eq _ r h0] at h
          subst h
          exact Or.inr (hb r)
  | set_frame_util_min m c =>
    simp only [step, set_frame_util_min, Option.some.injEq] at h
    subst h
    split <;> exact Or.inl rfl
  | set_frame_state st =>
    simp only [step, set_frame_state, Option.some.injEq] at h
    subst h
    split <;> exact Or.inl rfl
  | check_last_compose_time now c =>
    simp only [step, check_last_compose_time, Option.some.injEq] at h
    subst h
    cases c <;> exact Or.inl rfl
  | get_frame_vutil d =>
    simp only [step, Option.some.injEq] at h
    subst h
    exact Or.inl rfl
  | get_frame_putil d z =>
    simp only [step, Option.some.injEq] at h
    subst h
    exact Or.inl rfl
  | frame_uclamp u =>
    simp only [step, Option.some.injEq] at h
    subst h
    exact Or.inl rfl
  | is_high_frame_rate =>
    simp only [step, Option.some.injEq] at h
    subst h
    exact Or.inl rfl

/-- In every reachable record the time-to-max is at most 1000 ms. -/
theorem reachable_time2max_le (E : Nat) (fi : frame_info) (h : Reachable E fi) :
    fi.vutil_time2max ≤ 1000 := by
  obtain ⟨ops, hrun⟩ := h
  refine run_preserves (fun s => s.vutil_time2max ≤ 1000) ?_ ops _ fi ?_ hrun
  · intro s op s1 hP hs
    rcases step_time2max s op s1 hs with e | hle
    · rw [e]
      exact hP
    · exact hle
  · show toU32 (toU32 (VUTIL_MAX_FRAME_COUNT * DEFAULT_FRAME_INTERVAL) / NSEC_PER_MSEC) ≤ 1000
    decide

/-! ## Virtual utilization: range, saturation, in-band formula -/

/-- Whenever the elapsed milliseconds fit in a non-negative `int`, the value is at most
1024, for every record. -/
theorem get_frame_vutil_le_of_ms_lt (E : Nat) (fi : frame_info) (delta : Nat)
    (h : delta / 1000000 < 2 ^ 31) : get_frame_vutil E fi delta ≤ 1024 := by
  by_cases hs : fi.frame_state = E
  · simp [get_frame_vutil, hs]
  · by_cases hK : toInt32 fi.vutil_time2max ≤ 0
    · unfold get_frame_vutil
      rw [if_neg hs]
      simp only [hK, true_or, if_true]
      exact le_refl _
    · obtain ⟨K, hKeq, hK0, hK1, _⟩ := toInt32_pos (lt_of_not_ge hK)
      rw [get_frame_vutil_closed E fi delta K (delta / 1000000) hs hKeq hK0 hK1
        (delta_ms_of_lt h)]
      exact curve_le K _

/-- C11 fails on a reachable record: after `frame_info_init` and `set_frame_state 1`
(a state other than `FRAME_END = 2`, time-to-max 16), the 64-bit elapsed time
`4294967286000000` ns is `2^32 - 10` ms, which `delta_ms` (an `int`) holds as `-10`; the
saturation test `delta_ms > max_time` is false, `tmp = 54`, and `-10 * 38 = -380`
converted to `unsigned long` is `2^64 - 380`, far above 1024. -/
theorem get_frame_vutil_exceeds_max :
    Reachable 2 (set_frame_state (frame_info_init 2) 1) ∧
    4294967286000000 < 2 ^ 64 ∧
    toInt32 (toU64 4294967286000000 / NSEC_PER_MSEC) = -10 ∧
    get_frame_vutil 2 (set_frame_state (frame_info_init 2) 1) 4294967286000000 =
      18446744073709551236 ∧
    ¬ get_frame_vutil 2 (set_frame_state (frame_info_init 2) 1) 4294967286000000 ≤ 1024 :=
  ⟨⟨[Op.set_frame_state 1], by decide⟩, by decide, by decide, by decide, by decide⟩

/-- C12 fails on the record after `frame_info_init` and `set_frame_state 1` (not
`FRAME_END = 2`, time-to-max 16): the elapsed time `4294967296000000` ns is `2^32` ms,
more than 16 ms, but `delta_ms` (an `int`) holds it as `0`, so the saturation test is
false and the call returns 0 instead of 1024. -/
theorem get_frame_vutil_misses_saturation :
    (set_frame_state (frame_info_init 2) 1).frame_state ≠ 2 ∧
    (set_frame_state (frame_info_init 2) 1).vutil_time2max = 16 ∧
    4294967296000000 < 2 ^ 64 ∧
    4294967296000000 / 1000000 > (set_frame_state (frame_info_init 2) 1).vutil_time2max ∧
    toInt32 (toU64 4294967296000000 / NSEC_PER_MSEC) = 0 ∧
    get_frame_vutil 2 (set_frame_state (frame_info_init 2) 1) 4294967296000000 = 0 :=
  ⟨by decide, by decide, by decide, by decide, by decide, by decide⟩

/-- The in-band formula on any record whose `vutil_time2max` is positive and below
`2^31`, so that `max_time` (an `int`) is that same positive value. -/
theorem get_frame_vutil_in_band_of_lt (FRAME_END : Nat) (fi : frame_info) (delta : Nat)
    (hs : fi.frame_state ≠ FRAME_END)
    (hM0 : 0 < fi.vutil_time2max) (hM1 : fi.vutil_time2max < 2 ^ 31)
    (hd : delta / 1000000 ≤ fi.vutil_time2max) :
    get_frame_vutil FRAME_END fi delta =
      (if delta / 1000000 + 1024 / fi.vutil_time2max ≤ fi.vutil_time2max then 0
        else delta / 1000000 *
          (delta / 1000000 + 1024 / fi.vutil_time2max - fi.vutil_time2max)) ∧
    get_frame_vutil FRAME_END fi 0 = 0 := by
  have hK := toInt32_of_lt hM1
  constructor
  · rw [get_frame_vutil_closed FRAME_END fi delta fi.vutil_time2max (delta / 1000000) hs hK hM0
      hM1 (delta_ms_of_lt (by omega)), if_neg (by omega)]
  · rw [get_frame_vutil_closed FRAME_END fi 0 fi.vutil_time2max 0 hs hK hM0 hM1
      (delta_ms_of_lt (by norm_num)), if_neg (by omega)]
    split_ifs <;> simp

/-- C13: in every record the interface can produce (`frame_info_init` followed by any
calls) whose `frame_state` is not `FRAME_END`, with `M = vutil_time2max > 0`, for every
`delta` with `d = delta / 1000000 ≤ M` the call returns 0 when `d + 1024 / M ≤ M` and
`d * (d + 1024 / M - M)` otherwise (the difference is positive there); in particular it
returns 0 for `delta = 0`. -/
theorem get_frame_vutil_in_band (FRAME_END : Nat) (fi : frame_info) (delta : Nat)
    (hr : Reachable FRAME_END fi) (hs : fi.frame_state ≠ FRAME_END)
    (hM0 : 0 < fi.vutil_time2max) (hd : delta / 1000000 ≤ fi.vutil_time2max) :
    get_frame_vutil FRAME_END fi delta =
      (if delta / 1000000 + 1024 / fi.vutil_time2max ≤ fi.vutil_time2max then 0
        else delta / 1000000 *
          (delta / 1000000 + 1024 / fi.vutil_time2max - fi.vutil_time2max)) ∧
    get_frame_vutil FRAME_END fi 0 = 0 := by
  have hle : fi.vutil_time2max ≤ 1000 := reachable_time2max_le FRAME_END fi hr
  exact get_frame_vutil_in_band_of_lt FRAME_END fi delta hs hM0 (by omega) hd

/-- Instance of C13: 60 Hz defaults, frame started, 8 ms elapsed. -/
theorem get_frame_vutil_in_band_witness :
    Reachable 2 (set_frame_state (frame_info_init 2) 1) ∧
    (set_frame_state (frame_info_init 2) 1).frame_state ≠ 2 ∧
    0 < (set_frame_state (frame_info_init 2) 1).vutil_time2max ∧
    8000000 / 1000000 ≤ (set_frame_state (frame_info_init 2) 1).vutil_time2max ∧
    get_frame_vutil 2 (set_frame_state (frame_info_init 2) 1) 8000000 = 8 * (8 + 64 - 16) :=
  ⟨⟨[Op.set_frame_state 1], by decide⟩, by decide, by decide, by decide,
    (get_frame_vutil_in_band 2 (set_frame_state (frame_info_init 2) 1) 8000000
      ⟨[Op.set_frame_state 1], by decide⟩ (by decide) (by decide) (by decide)).1⟩

/-- C14: at 60 Hz (`vutil_time2max = 16`, as after `frame_info_init` or
`set_max_frame_rate 60`) in a state other than `FRAME_END`: `get_frame_vutil 0 = 0`,
`get_frame_vutil 17000000 = 1024`, some elapsed time strictly between 0 and 16 ms has a
value strictly between 0 and 1024, and the value is non-decreasing in the elapsed time
over the band 0..16 ms. -/
theorem get_frame_vutil_60hz (FRAME_END : Nat) (fi : frame_info)
    (hM : fi.vutil_time2max = 16) (hs : fi.frame_state ≠ FRAME_END) :
    (frame_info_init FRAME_END).vutil_time2max = 16 ∧
    (∀ s : frame_info, (set_max_frame_rate s 60).map (fun s1 => s1.vutil_time2max) = some 16) ∧
    get_frame_vutil FRAME_END fi 0 = 0 ∧
    get_frame_vutil FRAME_END fi 17000000 = 1024 ∧
    (∃ delta : Nat, 0 < delta ∧ delta < 16000000 ∧
      0 < get_frame_vutil FRAME_END fi delta ∧ get_frame_vutil FRAME_END fi delta < 1024) ∧
    (∀ d1 d2 : Nat, d1 ≤ d2 → d2 ≤ 16000000 →
      get_frame_vutil FRAME_END fi d1 ≤ get_frame_vutil FRAME_END fi d2) := by
  have hK : toInt32 fi.vutil_time2max = ((16 : Nat) : Int) := by
    rw [hM]
    exact toInt32_of_lt (by norm_num)
  have hcl : ∀ delta : Nat, delta / 1000000 < 2 ^ 31 →
      get_frame_vutil FRAME_END fi delta =
        if 16 < delta / 1000000 then 1024
        else if delta / 1000000 + 1024 / 16 ≤ 16 then 0
        else delta / 1000000 * (delta / 1000000 + 1024 / 16 - 16) := fun delta h =>
    get_frame_vutil_closed FRAME_END fi delta 16 (delta / 1000000) hs hK (by norm_num)
      (by norm_num) (delta_ms_of_lt h)
  refine ⟨rfl, ?_, ?_, ?_, ⟨8000000, by norm_num, by norm_num, ?_, ?_⟩, ?_⟩
  · intro s
    rw [set_max_frame_rate, helper_set_frame_rate_eq _ 60 (by norm_num)]
    rfl
  · rw [hcl 0 (by norm_num)]
    decide
  · rw [hcl 17000000 (by norm_num)]
    decide
  · rw [hcl 8000000 (by norm_num)]
    decide
  · rw [hcl 8000000 (by norm_num)]
    decide
  · intro d1 d2 h12 h2
    have hb : d2 / 1000000 ≤ 16 := by omega
    have ha : d1 / 1000000 ≤ d2 / 1000000 := Nat.div_le_div_right h12
    rw [hcl d1 (by omega), hcl d2 (by omega)]
    exact curve_mono 16 _ _ ha

/-- Instance of C14: the initial record after `set_frame_state 1`, with `FRAME_END = 2`. -/
theorem get_frame_vutil_60hz_witness :
    (set_frame_state (frame_info_init 2) 1).vutil_time2max = 16 ∧
    (set_frame_state (frame_info_init 2) 1).frame_state ≠ 2 ∧
    get_frame_vutil 2 (set_frame_state (frame_info_init 2) 1) 0 = 0 ∧
    get_frame_vutil 2 (set_frame_state (frame_info_init 2) 1) 17000000 = 1024 :=
  ⟨by decide, by decide,
    (get_frame_vutil_60hz 2 (set_frame_state (frame_info_init 2) 1)
      (by decide) (by decide)).2.2.1,
    (get_frame_vutil_60hz 2 (set_frame_state (frame_info_init 2) 1)
      (by decide) (by decide)).2.2.2.1⟩

/-! ## Clamp, physical utilization, composition time -/

/-- C15: when `frame_min_util > frame_max_util`, `frame_uclamp` returns `util` itself;
otherwise it returns `min (max util frame_min_util) frame_max_util`, which lies in
`[frame_min_util, frame_max_util]` and is `util` when `util` already lies there. The call
leaves the record as it is. -/
theorem frame_uclamp_result (fi : frame_info) (util : Nat) :
    (fi.frame_min_util > fi.frame_max_util → frame_uclamp fi util = util) ∧
    (fi.frame_min_util ≤ fi.frame_max_util →
      frame_uclamp fi util = min (max util fi.frame_min_util) fi.frame_max_util ∧
      fi.frame_min_util ≤ frame_uclamp fi util ∧
      frame_uclamp fi util ≤ fi.frame_max_util ∧
      (fi.frame_min_util ≤ util → util ≤ fi.frame_max_util → frame_uclamp fi util = util)) ∧
    step fi (Op.frame_uclamp util) = some fi := by
  refine ⟨?_, ?_, rfl⟩
  · intro h
    simp [frame_uclamp, h]
  · intro h
    have hn : ¬ fi.frame_min_util > fi.frame_max_util := by omega
    have e : frame_uclamp fi util = min (max fi.frame_min_util util) fi.frame_max_util := by
      simp [frame_uclamp, hn]
    refine ⟨by rw [e, max_comm], ?_, ?_, ?_⟩
    · rw [e]
      omega
    · rw [e]
      omega
    · intro h1 h2
      rw [e]
      omega

/-- C16, as stated, fails for `delta = 2^54` with the zone flag clear (interval
`16666667`): `delta << 10` is `2^64`, which a `u64` holds as 0, so the call returns 0,
while `floor(delta * 1024 / 16666667)` over unbounded integers is `1106804622286`. -/
theorem get_frame_putil_shift_wraps :
    18014398509481984 < 2 ^ 64 ∧
    Nat.land 0 FRAME_ZONE = 0 ∧
    get_frame_putil (frame_info_init 2) 18014398509481984 0 = 0 ∧
    18014398509481984 * 1024 / 16666667 = 1106804622286 :=
  ⟨by decide, by decide, by decide, by decide⟩

/-- The value of `get_frame_putil` for every 64-bit `delta`: the shifted dividend is
reduced modulo `2^64` before the division. -/
theorem get_frame_putil_wrapped (fi : frame_info) (delta frame_zone : Nat)
    (hd : delta < 2 ^ 64) (hi : fi.frame_interval < 2 ^ 32) :
    get_frame_putil fi delta frame_zone =
      (if (if frame_zone % 2 = 1 then fi.frame_interval else 16666667) = 0 then 0
        else delta * 1024 % 2 ^ 64 /
          (if frame_zone % 2 = 1 then fi.frame_interval else 16666667)) := by
  have hland : Nat.land frame_zone FRAME_ZONE = frame_zone % 2 := Nat.and_one_is_mod frame_zone
  have hsh : toU64 (toU64 delta <<< SCHED_CAPACITY_SHIFT) = delta * 1024 % 2 ^ 64 := by
    rw [toU64_of_lt hd, Nat.shiftLeft_eq]
    rfl
  have key : ∀ I : Nat, I < 2 ^ 32 →
      (if I > 0 then toU64 (toU64 delta <<< SCHED_CAPACITY_SHIFT) / toU32 I else 0) =
        if I = 0 then 0 else delta * 1024 % 2 ^ 64 / I := by
    intro I hI
    rw [hsh, toU32_of_lt hI]
    by_cases h : I = 0
    · simp [h]
    · rw [if_pos (Nat.pos_of_ne_zero h), if_neg h]
  have hI : (if frame_zone % 2 = 1 then fi.frame_interval else 16666667) < 2 ^ 32 := by
    split_ifs
    · exact hi
    · norm_num
  have hsel : (if Nat.land frame_zone FRAME_ZONE ≠ 0 then fi.frame_interval
      else DEFAULT_FRAME_INTERVAL) =
      (if frame_zone % 2 = 1 then fi.frame_interval else 16666667) := by
    rw [hland]
    by_cases hz : frame_zone % 2 = 1
    · rw [if_pos hz, if_pos (by omega)]
    · rw [if_neg hz, if_neg (by omega)]
      rfl
  unfold get_frame_putil
  simp only [hsel]
  exact key _ hI

/-- C16, amended: with `interval = frame_interval` when bit 0 of the flag is set and
`16666667` otherwise, for every `delta < 2^54` (so that `delta << 10` fits in 64 bits)
`get_frame_putil` returns 0 when `interval = 0` and `floor(delta * 1024 / interval)`
otherwise. -/
theorem get_frame_putil_result (fi : frame_info) (delta frame_zone : Nat)
    (hd : delta < 2 ^ 54) (hi : fi.frame_interval < 2 ^ 32) :
    get_frame_putil fi delta frame_zone =
      (if (if frame_zone % 2 = 1 then fi.frame_interval else 16666667) = 0 then 0
        else delta * 1024 /
          (if frame_zone % 2 = 1 then fi.frame_interval else 16666667)) := by
  have hm : delta * 1024 % 2 ^ 64 = delta * 1024 := Nat.mod_eq_of_lt (by omega)
  rw [get_frame_putil_wrapped fi delta frame_zone (by omega) hi, hm]

/-- Instance of amended C16: 8 ms against the default interval gives `8000000 * 1024 /
16666667 = 491`. -/
theorem get_frame_putil_result_witness :
    8000000 < 2 ^ 54 ∧ (frame_info_init 2).frame_interval < 2 ^ 32 ∧
    get_frame_putil (frame_info_init 2) 8000000 0 = 491 :=
  ⟨by decide, by decide,
    get_frame_putil_result (frame_info_init 2) 8000000 0 (by decide) (by decide)⟩

/-- C17: with the clock value passed as an argument, `check_last_compose_time true` at
time `t0` returns true and stores `last_compose_time = t0`, changing no other field; a
following `check_last_compose_time false` at a later time `t1` returns true exactly when
`t1 - t0 ≤ frame_interval`, and changes no field. -/
theorem check_last_compose_time_result (fi : frame_info) (t0 t1 : Nat)
    (h01 : t0 ≤ t1) (h1 : t1 < 2 ^ 64) :
    check_last_compose_time fi t0 true = (true, { fi with last_compose_time := t0 }) ∧
    ((check_last_compose_time { fi with last_compose_time := t0 } t1 false).1 = true ↔
      t1 - t0 ≤ fi.frame_interval) ∧
    (check_last_compose_time { fi with last_compose_time := t0 } t1 false).2 =
      { fi with last_compose_time := t0 } := by
  have hsub : ((((t1 : Int) - (t0 : Int)) % 2 ^ 64).toNat) = t1 - t0 := by omega
  refine ⟨?_, ?_, rfl⟩
  · simp [check_last_compose_time]
  · simp only [check_last_compose_time, Bool.false_eq_true, if_false, hsub, decide_eq_true_eq]

/-- Instance of C17 on the initial record: composition at 1000 ns, then a check one
interval later. -/
theorem check_last_compose_time_result_witness :
    1000 ≤ 16667667 ∧ 16667667 < 2 ^ 64 ∧
    check_last_compose_time (frame_info_init 2) 1000 true =
      (true, { frame_info_init 2 with last_compose_time := 1000 }) ∧
    ((check_last_compose_time { frame_info_init 2 with last_compose_time := 1000 }
        16667667 false).1 = true ↔ 16667667 - 1000 ≤ (frame_info_init 2).frame_interval) ∧
    (check_last_compose_time { frame_info_init 2 with last_compose_time := 1000 }
        16667667 false).2 = { frame_info_init 2 with last_compose_time := 1000 } :=
  ⟨by decide, by decide,
    check_last_compose_time_result (frame_info_init 2) 1000 16667667 (by decide) (by decide)⟩

/-! ## The end of the band and monotonicity -/

/-- C19, as stated, fails at 90 Hz: after `set_max_frame_rate 90` and
`set_frame_state 1` (not `FRAME_END = 2`) the time-to-max is `M = 11`, and at exactly
11 ms the call returns `11 * (1024 / 11) = 11 * 93 = 1023`, not 1024. -/
theorem get_frame_vutil_at_time2max_90hz :
    run (frame_info_init 2) [Op.set_max_frame_rate 90, Op.set_frame_state 1] =
      some { frame_info_init 2 with
        frame_rate_max := 90
        frame_rate := 90
        frame_interval := 11111111
        vutil_time2max := 11
        frame_state := 1 } ∧
    get_frame_vutil 2
      { frame_info_init 2 with
        frame_rate_max := 90
        frame_rate := 90
        frame_interval := 11111111
        vutil_time2max := 11
        frame_state := 1 } (11 * 1000000) = 1023 :=
  ⟨by decide, by decide⟩

/-- C19, amended: in every reachable record outside `FRAME_END` with
`M = vutil_time2max > 0`, the call at exactly `M` ms returns `M * (1024 / M)` (integer
division), which is 1024 exactly when `M` divides 1024; and for every elapsed time whose
millisecond value `d` satisfies `M < d < 2^31`, in particular at `M + 1` ms, the call
returns 1024. -/
theorem get_frame_vutil_at_time2max (FRAME_END : Nat) (fi : frame_info)
    (hr : Reachable FRAME_END fi) (hs : fi.frame_state ≠ FRAME_END)
    (hM : 0 < fi.vutil_time2max) :
    get_frame_vutil FRAME_END fi (fi.vutil_time2max * 1000000) =
      fi.vutil_time2max * (1024 / fi.vutil_time2max) ∧
    (get_frame_vutil FRAME_END fi (fi.vutil_time2max * 1000000) = 1024 ↔
      fi.vutil_time2max ∣ 1024) ∧
    (∀ delta : Nat, fi.vutil_time2max < delta / 1000000 → delta / 1000000 < 2 ^ 31 →
      get_frame_vutil FRAME_END fi delta = 1024) ∧
    get_frame_vutil FRAME_END fi ((fi.vutil_time2max + 1) * 1000000) = 1024 := by
  have hle : fi.vutil_time2max ≤ 1000 := reachable_time2max_le FRAME_END fi hr
  have hK : toInt32 fi.vutil_time2max = (fi.vutil_time2max : Int) := toInt32_of_lt (by omega)
  have hdiv : fi.vutil_time2max * 1000000 / 1000000 = fi.vutil_time2max :=
    Nat.mul_div_cancel _ (by norm_num)
  have hdiv1 : (fi.vutil_time2max + 1) * 1000000 / 1000000 = fi.vutil_time2max + 1 :=
    Nat.mul_div_cancel _ (by norm_num)
  have hq : 0 < 1024 / fi.vutil_time2max := Nat.div_pos (by omega) hM
  have hval : get_frame_vutil FRAME_END fi (fi.vutil_time2max * 1000000) =
      fi.vutil_time2max * (1024 / fi.vutil_time2max) := by
    rw [get_frame_vutil_closed FRAME_END fi (fi.vutil_time2max * 1000000) fi.vutil_time2max
      fi.vutil_time2max hs hK hM (by omega)
      (by
        have := @delta_ms_of_lt (fi.vutil_time2max * 1000000) (by omega)
        rw [hdiv] at this
        exact this),
      if_neg (by omega), if_neg (by omega)]
    congr 1
    omega
  have hsat : ∀ delta : Nat, fi.vutil_time2max < delta / 1000000 →
      delta / 1000000 < 2 ^ 31 → get_frame_vutil FRAME_END fi delta = 1024 := by
    intro delta hgt hlt
    rw [get_frame_vutil_closed FRAME_END fi delta fi.vutil_time2max (delta / 1000000) hs hK hM
      (by omega) (delta_ms_of_lt hlt), if_pos hgt]
  refine ⟨hval, by rw [hval]; exact Nat.mul_div_eq_iff_dvd, hsat, ?_⟩
  exact hsat _ (by omega) (by omega)

/-- Instance of amended C19: at 120 Hz (`M = 8`) the value at 8 ms is `8 * 128 = 1024`. -/
theorem get_frame_vutil_at_time2max_witness :
    Reachable 2 { frame_info_init 2 with
        frame_rate_max := 120
        frame_rate := 120
        frame_interval := 8333333
        vutil_time2max := 8
        frame_state := 1 } ∧
    get_frame_vutil 2
      { frame_info_init 2 with
        frame_rate_max := 120
        frame_rate := 120
        frame_interval := 8333333
        vutil_time2max := 8
        frame_state := 1 } (8 * 1000000) = 8 * (1024 / 8) :=
  ⟨⟨[Op.set_max_frame_rate 120, Op.set_frame_state 1], by decide⟩,
    (get_frame_vutil_at_time2max 2
      { frame_info_init 2 with
        frame_rate_max := 120
        frame_rate := 120
        frame_interval := 8333333
        vutil_time2max := 8
        frame_state := 1 }
      ⟨[Op.set_max_frame_rate 120, Op.set_frame_state 1], by decide⟩
      (by decide) (by decide)).1⟩

/-- C20: outside `FRAME_END`, for every value of `vutil_time2max` and all elapsed times
`d1 ≤ d2` whose millisecond value `d2 / 1000000` is below `2^31`,
`get_frame_vutil d1 ≤ get_frame_vutil d2`. -/
theorem get_frame_vutil_mono (FRAME_END : Nat) (fi : frame_info) (d1 d2 : Nat)
    (hs : fi.frame_state ≠ FRAME_END) (h12 : d1 ≤ d2) (h2 : d2 / 1000000 < 2 ^ 31) :
    get_frame_vutil FRAME_END fi d1 ≤ get_frame_vutil FRAME_END fi d2 := by
  have ha : d1 / 1000000 ≤ d2 / 1000000 := Nat.div_le_div_right h12
  by_cases hK : toInt32 fi.vutil_time2max ≤ 0
  · have hsat : ∀ delta : Nat, get_frame_vutil FRAME_END fi delta = FRAME_MAX_UTIL := by
      intro delta
      unfold get_frame_vutil
      rw [if_neg hs]
      simp only [hK, true_or, if_true]
    rw [hsat d1, hsat d2]
  · obtain ⟨K, hKeq, hK0, hK1, _⟩ := toInt32_pos (lt_of_not_ge hK)
    rw [get_frame_vutil_closed FRAME_END fi d1 K (d1 / 1000000) hs hKeq hK0 hK1
        (delta_ms_of_lt (by omega)),
      get_frame_vutil_closed FRAME_END fi d2 K (d2 / 1000000) hs hKeq hK0 hK1
        (delta_ms_of_lt h2)]
    exact curve_mono K _ _ ha

/-- Instance of C20: 60 Hz defaults, frame started, 8 ms against 17 ms. -/
theorem get_frame_vutil_mono_witness :
    (set_frame_state (frame_info_init 2) 1).frame_state ≠ 2 ∧
    8000000 ≤ 17000000 ∧ 17000000 / 1000000 < 2 ^ 31 ∧
    get_frame_vutil 2 (set_frame_state (frame_info_init 2) 1) 8000000 ≤
      get_frame_vutil 2 (set_frame_state (frame_info_init 2) 1) 17000000 :=
  ⟨by decide, by decide, by decide,
    get_frame_vutil_mono 2 (set_frame_state (frame_info_init 2) 1) 8000000 17000000
      (by decide) (by decide) (by decide)⟩

end FrameBoost
